import Mathlib

/-!
Verification development for the HealthKit semantic query layer
(`health_query.py` and `mcp_server/server.py`).

The Python code is shallowly embedded: the query compiler
(`build_health_query_sql`, `get_time_group_expr`) becomes a pure Lean
function on an explicit data model of the query intent and the two
catalogs; the executor (`run_spec`) becomes a function over an explicit
engine model that also returns the trace of engine interactions; the
result normalizer (`_json_safe_rows`) becomes a recursive function on a
JSON-like value type.

Modelling conventions for Python values:
  - a dict field that may be absent or hold `None` is `Option (Option T)`:
    `none` is an absent key, `some none` a key holding `None`,
    `some (some v)` a key holding `v`;
  - Python truthiness of a string-or-None value: `None` and the empty
    string are falsy, everything else truthy (`truthyStr`);
  - `a or b` on such values is `pyOr`;
  - the two YAML catalogs (`metrics.yaml`, `dimensions.yaml`) are not part
    of the sources, so they are parameters of every function, with the
    field shapes the code reads from them.
-/

namespace HealthQuery

/-- The optional `time_range` object of a query spec.  Source field names
are `start` and `end`; `end` is a Lean keyword, hence `end_`.  `none`
stands for an absent key or a `None` value (both are falsy in the
truthiness check of the source on `time_range.get("start")`). -/
structure TimeRange where
  start : Option String
  end_ : Option String
deriving DecidableEq, Repr

/-- The query intent (`HealthQuerySpec` TypedDict in the source).  The
`metric` key is always read with `spec["metric"]`, so it is modelled as
required; the other keys are read with `spec.get`, so they are modelled
as possibly absent, and for the string fields possibly present-but-null
(`Option (Option String)`). -/
structure HealthQuerySpec where
  metric : String
  aggregation : Option (Option String)
  time_grain : Option (Option String)
  limit : Option Int
  time_range : Option TimeRange
deriving DecidableEq, Repr

/-- One entry of `metrics.yaml`: the fields `build_health_query_sql`
reads from `metric_def`. -/
structure MetricDef where
  hk_type : String
  unit : Option String
  default_agg : Option String
  cast : Option String
deriving DecidableEq, Repr

/-- The metrics catalog (`metrics.yaml`): the `metrics` mapping plus the
top-level keys the compiler reads (`table`, `value_field`, `defaults`).
An absent `metrics` key in the YAML behaves as the empty mapping
(`metrics_cfg.get("metrics", {})`), which the empty list models. -/
structure MetricsCfg where
  metrics : List (String × MetricDef)
  table : Option String
  value_field : Option String
  defaults_aggregation : Option String
  defaults_cast : Option String
  defaults_time_grain : Option String
deriving DecidableEq, Repr

/-- The dimension catalog (`dimensions.yaml`): the four grouping
expressions `get_time_group_expr` reads from
`dimensions_cfg["dimensions"]["time"]["fields"]`. -/
structure DimensionsCfg where
  date_expr : String
  month_expr : String
  week_expr : String
  start_timestamp_expr : String
deriving DecidableEq, Repr

/-- Python `spec.get(key)` on an `Option (Option String)` field: an
absent key and a `None` value both come out as `None` (`none`). -/
def pyGet (f : Option (Option String)) : Option String :=
  f.getD none

/-- Python truthiness of a string-or-None value: `None` and `""` are
falsy. -/
def truthyStr : Option String → Bool
  | none => false
  | some s => decide (s ≠ "")

/-- Python `a or b` where `a` is a string-or-None value and `b` a final
string: `a` if truthy, else `b`. -/
def pyOr (a : Option String) (b : String) : String :=
  match a with
  | none => b
  | some s => if s = "" then b else s

/-- Python `str.upper()`, modelled character-wise. -/
def upperStr (s : String) : String :=
  ⟨s.data.map Char.toUpper⟩

/-- Python `str.lower()`, modelled character-wise. -/
def lowerStr (s : String) : String :=
  ⟨s.data.map Char.toLower⟩

/-- Embeds `get_time_group_expr` (health_query.py, lines 40 to 55): map a
logical time grain to `(expr, alias)` using the dimension catalog, with
the full start timestamp as fallback for any grain outside day, month,
week. -/
def get_time_group_expr (time_grain : String) (dimensions_cfg : DimensionsCfg) :
    String × String :=
  if time_grain = "day" then
    (dimensions_cfg.date_expr, "date")
  else if time_grain = "month" then
    (dimensions_cfg.month_expr, "month")
  else if time_grain = "week" then
    (dimensions_cfg.week_expr, "week")
  else
    (dimensions_cfg.start_timestamp_expr, "start_timestamp")

/-- Line 80 of the source:
`agg = spec.get("aggregation") or metric_def.get("default_agg") or defaults.get("aggregation", "avg")`. -/
def resolveAgg (spec : HealthQuerySpec) (metric_def : MetricDef) (metrics_cfg : MetricsCfg) :
    String :=
  pyOr (pyGet spec.aggregation)
    (pyOr metric_def.default_agg (metrics_cfg.defaults_aggregation.getD "avg"))

/-- Line 81 of the source:
`cast_type = metric_def.get("cast") or defaults.get("cast", "double")`. -/
def resolveCast (metric_def : MetricDef) (metrics_cfg : MetricsCfg) : String :=
  pyOr metric_def.cast (metrics_cfg.defaults_cast.getD "double")

/-- Line 84 of the source:
`time_grain = spec.get("time_grain") or defaults.get("time_grain", "day")`. -/
def resolveGrain (spec : HealthQuerySpec) (metrics_cfg : MetricsCfg) : String :=
  pyOr (pyGet spec.time_grain) (metrics_cfg.defaults_time_grain.getD "day")

/-- Lines 92 and 93 of the source: the optional unit filter clause, added
when the unit is neither `None`, nor the text null in any case, nor
empty. -/
def unitClauses (metric_def : MetricDef) : List String :=
  match metric_def.unit with
  | none => []
  | some u =>
    if lowerStr u ≠ "null" ∧ u ≠ "" then ["unit = \x27" ++ u ++ "\x27"] else []

/-- Lines 96 to 100 of the source: the optional date range clause, added
only when `time_range` is present and both of its bounds are truthy. -/
def timeRangeClauses (spec : HealthQuerySpec) : List String :=
  match spec.time_range with
  | none => []
  | some tr =>
    match tr.start, tr.end_ with
    | some s, some e =>
      if s ≠ "" ∧ e ≠ "" then
        ["startDate BETWEEN \x27" ++ s ++ "\x27 AND \x27" ++ e ++ "\x27"]
      else []
    | _, _ => []

/-- Lines 91 to 100 of the source: the full list of WHERE clauses, always
starting with the record type filter. -/
def whereClauses (spec : HealthQuerySpec) (metric_def : MetricDef) : List String :=
  ["type = \x27" ++ metric_def.hk_type ++ "\x27"] ++ unitClauses metric_def
    ++ timeRangeClauses spec

/-- The eight lines of the f-string at lines 110 to 119 of the source
(after `.strip()`, which removes exactly the leading and trailing
newline of the literal). -/
def sqlLinesOf (spec : HealthQuerySpec) (metric_def : MetricDef)
    (metrics_cfg : MetricsCfg) (dimensions_cfg : DimensionsCfg) : List String :=
  let table := metrics_cfg.table.getD "healthkit_records"
  let value_field := metrics_cfg.value_field.getD "value"
  let agg := resolveAgg spec metric_def metrics_cfg
  let cast_type := resolveCast metric_def metrics_cfg
  let time_grain := resolveGrain spec metrics_cfg
  let ge := get_time_group_expr time_grain dimensions_cfg
  let where_sql := String.intercalate " AND " (whereClauses spec metric_def)
  let value_expr := "CAST(" ++ value_field ++ " AS " ++ upperStr cast_type ++ ")"
  let agg_expr := upperStr agg ++ "(" ++ value_expr ++ ")"
  let limit := spec.limit.getD 100
  ["SELECT",
   "  " ++ ge.1 ++ " AS " ++ ge.2 ++ ",",
   "  " ++ agg_expr ++ " AS " ++ spec.metric,
   "FROM " ++ table,
   "WHERE " ++ where_sql,
   "GROUP BY " ++ ge.1,
   "ORDER BY " ++ ge.1,
   "LIMIT " ++ toString limit ++ ";"]

/-- Join a list of lines with single newline characters, as the f-string
literal of the source does. -/
def joinLines : List String → String
  | [] => ""
  | [l] => l
  | l :: ls => l ++ "\n" ++ joinLines ls

/-- Embeds `build_health_query_sql` (health_query.py, lines 58 to 121).
The only failure is the `ValueError(f"Unknown metric: {metric_name}")`
at line 72, modelled as `Except.error`. -/
def build_health_query_sql (spec : HealthQuerySpec) (metrics_cfg : MetricsCfg)
    (dimensions_cfg : DimensionsCfg) : Except String String :=
  match metrics_cfg.metrics.lookup spec.metric with
  | none => .error ("Unknown metric: " ++ spec.metric)
  | some metric_def =>
    .ok (joinLines (sqlLinesOf spec metric_def metrics_cfg dimensions_cfg))

/-! ### Line structure of the generated query

`splitNl` splits a character list at newline characters; it is the tool
used to state that the generated query consists of exactly the eight
template lines, with exactly one GROUP BY line. -/

/-- Split a character list at every newline character. -/
def splitNl : List Char → List (List Char)
  | [] => [[]]
  | c :: rest =>
    if c = '\n' then [] :: splitNl rest
    else
      match splitNl rest with
      | [] => [[c]]
      | l :: ls => (c :: l) :: ls

/-- Does a line (as a character list) start with the given string? -/
def lineStartsWith (p : String) (l : List Char) : Bool :=
  p.data.isPrefixOf l

/-- Number of lines of a string that start with the given prefix. -/
def countLinesStartingWith (p : String) (s : String) : Nat :=
  ((splitNl s.data).filter (lineStartsWith p)).length

/-! ### Result values and the normalizer

`JValue` models the values that can appear in a pandas
`df.to_dict(orient="records")` row: scalars, datetime-like values, and
(nested) dicts and lists.  `HDateTime` models a calendar instant at
second resolution (a `pd.Timestamp` / `datetime.datetime`; a plain
`datetime.date` is the special case of a midnight instant as far as the
identity of the instant is concerned). -/

/-- A calendar instant at second resolution. -/
structure HDateTime where
  year : Nat
  month : Nat
  day : Nat
  hour : Nat
  minute : Nat
  second : Nat
deriving DecidableEq, Repr

/-- Field ranges within which a Python datetime value always lies
(Python caps years at 9999). -/
def HDateTime.valid (t : HDateTime) : Prop :=
  t.year < 10000 ∧ 1 ≤ t.month ∧ t.month ≤ 12 ∧ 1 ≤ t.day ∧ t.day ≤ 31
    ∧ t.hour < 24 ∧ t.minute < 60 ∧ t.second < 60

instance (t : HDateTime) : Decidable t.valid := by
  unfold HDateTime.valid; infer_instance

/-- The decimal digit character for `n % 10`. -/
def digitChar (n : Nat) : Char :=
  Char.ofNat (48 + n % 10)

/-- Models the Python `isoformat()` call of the source normalizer at
second resolution: `YYYY-MM-DDTHH:MM:SS` with zero padding. -/
def isoformat (t : HDateTime) : String :=
  String.mk
    [digitChar (t.year / 1000), digitChar (t.year / 100),
     digitChar (t.year / 10), digitChar t.year, '-',
     digitChar (t.month / 10), digitChar t.month, '-',
     digitChar (t.day / 10), digitChar t.day, 'T',
     digitChar (t.hour / 10), digitChar t.hour, ':',
     digitChar (t.minute / 10), digitChar t.minute, ':',
     digitChar (t.second / 10), digitChar t.second]

/-- The numeric value of a decimal digit character. -/
def digitVal (c : Char) : Option Nat :=
  if 48 ≤ c.toNat ∧ c.toNat ≤ 57 then some (c.toNat - 48) else none

/-- An ISO-8601 parser for the exact shape `isoformat` produces: reads
the character list back into the calendar instant it denotes. -/
def parseIsoChars : List Char → Option HDateTime
  | [y1, y2, y3, y4, p1, m1, m2, p2, d1, d2, pt, h1, h2, p3, n1, n2, p4, s1, s2] =>
    if p1 = '-' ∧ p2 = '-' ∧ pt = 'T' ∧ p3 = ':' ∧ p4 = ':' then
      match digitVal y1, digitVal y2, digitVal y3, digitVal y4,
            digitVal m1, digitVal m2, digitVal d1, digitVal d2,
            digitVal h1, digitVal h2, digitVal n1, digitVal n2,
            digitVal s1, digitVal s2 with
      | some a, some b, some c, some d, some e, some f, some g, some h,
        some i, some j, some k, some l, some m, some n =>
        some ⟨a * 1000 + b * 100 + c * 10 + d, e * 10 + f, g * 10 + h,
              i * 10 + j, k * 10 + l, m * 10 + n⟩
      | _, _, _, _, _, _, _, _, _, _, _, _, _, _ => none
    else none
  | _ => none

/-- An ISO-8601 parser for the exact shape `isoformat` produces. -/
def parseIso (s : String) : Option HDateTime :=
  parseIsoChars s.data

/-- A JSON-like value in a result row, as produced by
`df.to_dict(orient="records")`: scalars pass through the normalizer,
datetime-like values get converted, dicts and lists are recursed into. -/
inductive JValue where
  | intVal (n : Int)
  | strVal (s : String)
  | boolVal (b : Bool)
  | nullVal
  | dateTime (t : HDateTime)
  | dictVal (fields : List (String × JValue))
  | listVal (elems : List JValue)

mutual

/-- Embeds the inner `convert` closure of `_json_safe_rows`
(health_query.py, lines 173 to 180): datetime-like values become their
ISO-8601 string, dicts and lists are converted element-wise, everything
else is returned unchanged. -/
def convert : JValue → JValue
  | .dateTime t => .strVal (isoformat t)
  | .dictVal fields => .dictVal (convertFields fields)
  | .listVal elems => .listVal (convertList elems)
  | .intVal n => .intVal n
  | .strVal s => .strVal s
  | .boolVal b => .boolVal b
  | .nullVal => .nullVal

/-- `{k: convert(v) for k, v in value.items()}`. -/
def convertFields : List (String × JValue) → List (String × JValue)
  | [] => []
  | (k, v) :: rest => (k, convert v) :: convertFields rest

/-- `[convert(v) for v in value]`. -/
def convertList : List JValue → List JValue
  | [] => []
  | v :: rest => convert v :: convertList rest

end

/-- Embeds `_json_safe_rows` (health_query.py, lines 168 to 182):
`[convert(row) for row in rows]`. -/
def _json_safe_rows (rows : List JValue) : List JValue :=
  convertList rows

mutual

/-- No datetime-like value occurs anywhere inside the value. -/
def noDateTimeVal : JValue → Bool
  | .dateTime _ => false
  | .dictVal fields => noDateTimeFields fields
  | .listVal elems => noDateTimeList elems
  | .intVal _ => true
  | .strVal _ => true
  | .boolVal _ => true
  | .nullVal => true

/-- No datetime-like value occurs in any field of the mapping. -/
def noDateTimeFields : List (String × JValue) → Bool
  | [] => true
  | (_, v) :: rest => noDateTimeVal v && noDateTimeFields rest

/-- No datetime-like value occurs in any element of the list. -/
def noDateTimeList : List JValue → Bool
  | [] => true
  | v :: rest => noDateTimeVal v && noDateTimeList rest

end

/-! ### The executor and the entry point

`run_spec` (health_query.py, lines 124 to 166) builds the SQL, connects
to an in-memory engine, registers the record store as a view, executes
the query, closes the connection, and normalizes the rows.  The engine
is modelled as the outcome of the view registration plus a function from
query text to either rows or an engine error; the model returns, next to
the result, the exact list of engine interactions performed before the
call returned, in order.  Crucially, the source has no try/finally
around lines 145 to 155: when one of the `con.execute` calls raises, the
`con.close()` at line 155 is never reached. -/

/-- The record-store path constant of the source (relative to the
project root). -/
def PARQUET_PATH : String :=
  "data/processed/healthkit_records.parquet"

/-- The view registration statement of lines 148 to 151. -/
def createViewSql : String :=
  "CREATE VIEW healthkit_records AS SELECT * FROM read_parquet(\x27"
    ++ PARQUET_PATH ++ "\x27);"

/-- One interaction with the analytical engine. -/
inductive EngineEvent where
  | connect
  | executeStmt (sql : String)
  | close
deriving DecidableEq, Repr

/-- The behaviour of the analytical engine together with the record
store underneath it: the outcome of the view registration and, for each
query text, either result rows or an engine error (malformed SQL,
missing record-store file, cast failure, ...). -/
structure EngineModel where
  createView : Except String Unit
  runQuery : String → Except String (List JValue)

/-- Everything `run_spec` reads from outside the intent: the two catalog
files (loaded, unmodified, on every call) and the engine with its record
store. -/
structure World where
  metrics_cfg : MetricsCfg
  dimensions_cfg : DimensionsCfg
  engine : EngineModel

/-- An error escaping `run_spec`: the `ValueError` of the compiler for
an unknown metric, or an engine exception propagating unchanged out of
one of the `con.execute` calls. -/
inductive RunError where
  | unknownMetric (msg : String)
  | engineError (msg : String)
deriving DecidableEq, Repr

/-- The `{"sql": ..., "rows": ...}` payload of a successful call. -/
structure RunResult where
  sql : String
  rows : List JValue

/-- Embeds `run_spec` (health_query.py, lines 124 to 166), returning the
outcome together with the trace of engine interactions the call
performed.  The trace of each branch transcribes the straight-line code:
no engine interaction before the SQL is built; no `close` event on the
branches where an execute raises, because the source has no try/finally
around the connection. -/
def run_spec (w : World) (spec : HealthQuerySpec) :
    Except RunError RunResult × List EngineEvent :=
  match build_health_query_sql spec w.metrics_cfg w.dimensions_cfg with
  | .error msg => (.error (.unknownMetric msg), [])
  | .ok sql =>
    match w.engine.createView with
    | .error e =>
      (.error (.engineError e), [.connect, .executeStmt createViewSql])
    | .ok _ =>
      match w.engine.runQuery sql with
      | .error e =>
        (.error (.engineError e),
         [.connect, .executeStmt createViewSql, .executeStmt sql])
      | .ok tbl =>
        (.ok ⟨sql, _json_safe_rows tbl⟩,
         [.connect, .executeStmt createViewSql, .executeStmt sql, .close])

/-- Embeds `handle_healthkit_query` (health_query.py, lines 185 to 209):
a thin wrapper that forwards to `run_spec` and catches nothing. -/
def handle_healthkit_query (w : World) (args : HealthQuerySpec) :
    Except RunError RunResult × List EngineEvent :=
  run_spec w args

/-- Embeds the spec construction of the MCP tool `healthkit_query`
(mcp_server/server.py, lines 20 to 65): the tool always fills metric,
aggregation, time grain and limit, and adds a `time_range` only when
both `start` and `end` are truthy. -/
def healthkit_query_spec (metric : String) (aggregation : String)
    (time_grain : String) (limit : Int) (start : Option String)
    (end_ : Option String) : HealthQuerySpec :=
  ⟨metric, some (some aggregation), some (some time_grain), some limit,
   if truthyStr start ∧ truthyStr end_ then
     some ⟨start, end_⟩
   else none⟩

/-- Did the call succeed?  A Boolean view of the result of `run_spec`. -/
def isOkResult : Except RunError RunResult → Bool
  | .ok _ => true
  | .error _ => false

/-! ### Concrete fixtures used by witnesses and counterexamples -/

/-- A concrete metric catalog entry in the shape of `metrics.yaml`. -/
def hrMetric : MetricDef :=
  ⟨"HKQuantityTypeIdentifierHeartRate", some "count/min", some "avg", none⟩

/-- A second concrete metric entry, with a declared default sum. -/
def stepMetric : MetricDef :=
  ⟨"HKQuantityTypeIdentifierStepCount", some "count", some "sum", none⟩

/-- A concrete metric catalog with no top-level overrides. -/
def testMetricsCfg : MetricsCfg :=
  ⟨[("heart_rate", hrMetric), ("step_count", stepMetric)],
   none, none, none, none, none⟩

/-- A concrete dimension catalog in the shape of `dimensions.yaml`. -/
def testDimsCfg : DimensionsCfg :=
  ⟨"CAST(startDate AS DATE)",
   "date_trunc(\x27month\x27, startDate)",
   "date_trunc(\x27week\x27, startDate)",
   "startDate"⟩

/-- An engine on which every statement succeeds with an empty table. -/
def okEngine : EngineModel :=
  ⟨.ok (), fun _ => .ok []⟩

/-- An engine on which executing the compiled query raises. -/
def failingEngine : EngineModel :=
  ⟨.ok (), fun _ => .error "boom"⟩

/-- A healthy world: catalogs above, engine that succeeds. -/
def testWorld : World :=
  ⟨testMetricsCfg, testDimsCfg, okEngine⟩

/-- A world whose engine raises while executing the compiled query. -/
def failWorld : World :=
  ⟨testMetricsCfg, testDimsCfg, failingEngine⟩

/-- A plain heart-rate intent with every optional field absent. -/
def specHR : HealthQuerySpec :=
  ⟨"heart_rate", none, none, none, none⟩

/-- A fully specified heart-rate intent (spec scenario B shape). -/
def specW : HealthQuerySpec :=
  ⟨"heart_rate", some (some "avg"), some (some "day"), some 30, none⟩

/-- An intent with a grain outside day, week, month. -/
def yearSpec : HealthQuerySpec :=
  ⟨"heart_rate", none, some (some "year"), none, none⟩

/-- An intent with a complete June 2022 range (spec scenario C). -/
def junSpec : HealthQuerySpec :=
  ⟨"step_count", none, none, none,
   some ⟨some "2022-06-01", some "2022-06-30"⟩⟩

/-- The same intent with only the start bound supplied. -/
def startOnlySpec : HealthQuerySpec :=
  ⟨"step_count", none, none, none, some ⟨some "2022-06-01", none⟩⟩

/-! ### Basic string and line lemmas -/

theorem data_append (s t : String) : (s ++ t).data = s.data ++ t.data := by
  cases s; cases t; rfl

theorem splitNl_ne_nil (l : List Char) : splitNl l ≠ [] := by
  cases l with
  | nil => simp [splitNl]
  | cons c rest =>
    simp only [splitNl]
    split
    · simp
    · split <;> simp

theorem splitNl_no_nl (l : List Char) (h : '\n' ∉ l) : splitNl l = [l] := by
  induction l with
  | nil => rfl
  | cons c rest ih =>
    have hc : c ≠ '\n' := fun hh => h (hh ▸ List.mem_cons_self c rest)
    have hrest : '\n' ∉ rest := fun hm => h (List.mem_cons_of_mem _ hm)
    simp [splitNl, hc, ih hrest]

theorem splitNl_append (a b : List Char) (h : '\n' ∉ a) :
    splitNl (a ++ b) = (a ++ (splitNl b).headD []) :: (splitNl b).tail := by
  induction a with
  | nil =>
    simp only [List.nil_append]
    cases hb : splitNl b with
    | nil => exact absurd hb (splitNl_ne_nil b)
    | cons l ls => simp [hb]
  | cons c a ih =>
    have hc : c ≠ '\n' := fun hh => h (hh ▸ List.mem_cons_self c a)
    have ha : '\n' ∉ a := fun hm => h (List.mem_cons_of_mem _ hm)
    simp only [List.cons_append, splitNl, if_neg hc, List.append_eq]
    rw [ih ha]

theorem splitNl_newline_cons (b : List Char) :
    splitNl ('\n' :: b) = [] :: splitNl b := by
  simp [splitNl]

theorem splitNl_joinLines (lines : List String) (hne : lines ≠ [])
    (h : ∀ l ∈ lines, '\n' ∉ l.data) :
    splitNl (joinLines lines).data = lines.map String.data := by
  induction lines with
  | nil => exact absurd rfl hne
  | cons l ls ih =>
    cases ls with
    | nil =>
      simp only [joinLines, List.map_cons, List.map_nil]
      exact splitNl_no_nl l.data (h l (List.mem_cons_self l []))
    | cons l2 ls2 =>
      have hd : (joinLines (l :: l2 :: ls2)).data
          = l.data ++ ('\n' :: (joinLines (l2 :: ls2)).data) := by
        show (l ++ "\n" ++ joinLines (l2 :: ls2)).data = _
        rw [data_append, data_append]
        simp
      rw [hd, splitNl_append _ _ (h l (List.mem_cons_self l _)),
        splitNl_newline_cons]
      have hne2 : l2 :: ls2 ≠ [] := by simp
      have h2 : ∀ x ∈ l2 :: ls2, '\n' ∉ x.data :=
        fun x hx => h x (List.mem_cons_of_mem _ hx)
      simp [ih hne2 h2]

theorem isPrefixOf_cons_of_ne {a b : Char} (h : a ≠ b) (as bs : List Char) :
    (a :: as).isPrefixOf (b :: bs) = false := by
  simp [List.isPrefixOf, h]

theorem isPrefixOf_append_self (p rest : List Char) :
    p.isPrefixOf (p ++ rest) = true := by
  induction p with
  | nil => simp [List.isPrefixOf]
  | cons c p ih => simp [List.isPrefixOf, ih]

/-! ### Which template lines start with GROUP BY -/

theorem notGB_cons (c : Char) (rest : List Char) (h : c ≠ 'G') :
    lineStartsWith "GROUP BY" (c :: rest) = false := by
  show List.isPrefixOf "GROUP BY".data (c :: rest) = false
  simp [List.isPrefixOf, Ne.symm h]

theorem gb_cons (rest : List Char) :
    lineStartsWith "GROUP BY"
      ('G' :: 'R' :: 'O' :: 'U' :: 'P' :: ' ' :: 'B' :: 'Y' :: ' ' :: rest)
      = true := by
  show List.isPrefixOf "GROUP BY".data _ = true
  simp [List.isPrefixOf]

/-! ### Digit and round-trip lemmas -/

theorem digitVal_digitChar (n : Nat) :
    digitVal (digitChar n) = some (n % 10) := by
  have h : n % 10 < 10 := Nat.mod_lt _ (by norm_num)
  unfold digitChar digitVal
  set k := n % 10 with hk
  clear_value k
  interval_cases k <;> decide

theorem parseIso_isoformat (t : HDateTime) (h : t.valid) :
    parseIso (isoformat t) = some t := by
  obtain ⟨y, mo, d, hr, mi, se⟩ := t
  obtain ⟨h1, h2, h3, h4, h5, h6, h7, h8⟩ := h
  have hy : y < 10000 := h1
  have hmo : mo ≤ 12 := h3
  have hd : d ≤ 31 := h5
  have hhr : hr < 24 := h6
  have hmi : mi < 60 := h7
  have hse : se < 60 := h8
  show parseIsoChars (isoformat ⟨y, mo, d, hr, mi, se⟩).data = _
  simp only [isoformat]
  show parseIsoChars
      [digitChar (y / 1000), digitChar (y / 100), digitChar (y / 10), digitChar y, '-',
       digitChar (mo / 10), digitChar mo, '-', digitChar (d / 10), digitChar d, 'T',
       digitChar (hr / 10), digitChar hr, ':', digitChar (mi / 10), digitChar mi, ':',
       digitChar (se / 10), digitChar se] = _
  simp only [parseIsoChars, digitVal_digitChar]
  rw [if_pos (by decide)]
  simp only [Option.some.injEq, HDateTime.mk.injEq]
  refine ⟨?_, ?_, ?_, ?_, ?_, ?_⟩ <;> omega

/-! ### Normalizer lemmas -/

theorem convertList_eq_map (l : List JValue) : convertList l = l.map convert := by
  induction l with
  | nil => rfl
  | cons v rest ih => simp [convertList, ih]

theorem convertFields_eq_map (l : List (String × JValue)) :
    convertFields l = l.map (fun p => (p.1, convert p.2)) := by
  induction l with
  | nil => rfl
  | cons p rest ih => cases p; simp [convertFields, ih]

mutual

theorem noDateTimeVal_convert (v : JValue) : noDateTimeVal (convert v) = true := by
  cases v with
  | dateTime t => rfl
  | dictVal fields =>
    simpa [convert, noDateTimeVal] using noDateTimeFields_convertFields fields
  | listVal elems =>
    simpa [convert, noDateTimeVal] using noDateTimeList_convertList elems
  | intVal n => rfl
  | strVal s => rfl
  | boolVal b => rfl
  | nullVal => rfl

theorem noDateTimeFields_convertFields (l : List (String × JValue)) :
    noDateTimeFields (convertFields l) = true := by
  cases l with
  | nil => rfl
  | cons p rest =>
    cases p with
    | mk k v =>
      simp only [convertFields, noDateTimeFields, Bool.and_eq_true]
      exact ⟨noDateTimeVal_convert v, noDateTimeFields_convertFields rest⟩

theorem noDateTimeList_convertList (l : List JValue) :
    noDateTimeList (convertList l) = true := by
  cases l with
  | nil => rfl
  | cons v rest =>
    simp only [convertList, noDateTimeList, Bool.and_eq_true]
    exact ⟨noDateTimeVal_convert v, noDateTimeList_convertList rest⟩

end

mutual

theorem convert_of_noDateTimeVal (v : JValue) (h : noDateTimeVal v = true) :
    convert v = v := by
  cases v with
  | dateTime t => exact absurd h (by simp [noDateTimeVal])
  | dictVal fields =>
    simpa [convert] using convertFields_of_noDateTimeFields fields h
  | listVal elems =>
    simpa [convert] using convertList_of_noDateTimeList elems h
  | intVal n => rfl
  | strVal s => rfl
  | boolVal b => rfl
  | nullVal => rfl

theorem convertFields_of_noDateTimeFields (l : List (String × JValue))
    (h : noDateTimeFields l = true) : convertFields l = l := by
  cases l with
  | nil => rfl
  | cons p rest =>
    cases p with
    | mk k v =>
      simp only [noDateTimeFields, Bool.and_eq_true] at h
      simp only [convertFields]
      rw [convert_of_noDateTimeVal v h.1,
        convertFields_of_noDateTimeFields rest h.2]

theorem convertList_of_noDateTimeList (l : List JValue)
    (h : noDateTimeList l = true) : convertList l = l := by
  cases l with
  | nil => rfl
  | cons v rest =>
    simp only [noDateTimeList, Bool.and_eq_true] at h
    simp only [convertList]
    rw [convert_of_noDateTimeVal v h.1, convertList_of_noDateTimeList rest h.2]

end

/-! ### Helper lemmas about Python truthiness -/

theorem pyOr_truthy (a : Option String) (b : String) (s : String)
    (h : a = some s) (hne : s ≠ "") : pyOr a b = s := by
  subst h; simp [pyOr, hne]

theorem pyOr_falsy (a : Option String) (b : String)
    (h : truthyStr a = false) : pyOr a b = b := by
  cases a with
  | none => rfl
  | some s =>
    simp only [truthyStr, decide_eq_false_iff_not, not_not] at h
    simp [pyOr, h]

/-! ### Claim C2 -/

/-- C2: for every intent whose metric name is absent from the metric
catalog, the call fails with the unknown-metric error carrying the
message of the source, and the engine interaction trace of the call is empty:
no connect, no view registration, no query execution. -/
theorem unknown_metric_no_engine_call (w : World) (spec : HealthQuerySpec)
    (h : w.metrics_cfg.metrics.lookup spec.metric = none) :
    (run_spec w spec).1
      = .error (.unknownMetric ("Unknown metric: " ++ spec.metric))
    ∧ (run_spec w spec).2 = [] := by
  simp [run_spec, build_health_query_sql, h]

/-- Witness for C2 at the concrete metric name of spec scenario D. -/
theorem unknown_metric_no_engine_call_witness :
    (run_spec testWorld ⟨"nonexistent_metric", none, none, none, none⟩).1
      = .error (.unknownMetric "Unknown metric: nonexistent_metric")
    ∧ (run_spec testWorld ⟨"nonexistent_metric", none, none, none, none⟩).2 = [] :=
  unknown_metric_no_engine_call testWorld
    ⟨"nonexistent_metric", none, none, none, none⟩ rfl

/-! ### Claim C5 -/

/-- C5: the aggregation used by the compiler is the intent aggregation if
truthy, else the metric default if truthy, else the defaults entry of
the catalog with global default avg; the cast type is the metric cast if
truthy, else the defaults entry with global default double; the time
grain is the intent grain if truthy, else the defaults entry with global
default day. -/
theorem resolution_chain (spec : HealthQuerySpec) (md : MetricDef)
    (cfg : MetricsCfg) :
    (∀ a, pyGet spec.aggregation = some a → a ≠ "" →
      resolveAgg spec md cfg = a)
    ∧ (∀ d, truthyStr (pyGet spec.aggregation) = false →
        md.default_agg = some d → d ≠ "" → resolveAgg spec md cfg = d)
    ∧ (truthyStr (pyGet spec.aggregation) = false →
        truthyStr md.default_agg = false →
        resolveAgg spec md cfg = cfg.defaults_aggregation.getD "avg")
    ∧ (truthyStr (pyGet spec.aggregation) = false →
        truthyStr md.default_agg = false →
        cfg.defaults_aggregation = none → resolveAgg spec md cfg = "avg")
    ∧ (∀ c, md.cast = some c → c ≠ "" → resolveCast md cfg = c)
    ∧ (truthyStr md.cast = false →
        resolveCast md cfg = cfg.defaults_cast.getD "double")
    ∧ (truthyStr md.cast = false → cfg.defaults_cast = none →
        resolveCast md cfg = "double")
    ∧ (∀ g, pyGet spec.time_grain = some g → g ≠ "" →
        resolveGrain spec cfg = g)
    ∧ (truthyStr (pyGet spec.time_grain) = false →
        resolveGrain spec cfg = cfg.defaults_time_grain.getD "day")
    ∧ (truthyStr (pyGet spec.time_grain) = false →
        cfg.defaults_time_grain = none → resolveGrain spec cfg = "day") := by
  refine ⟨?_, ?_, ?_, ?_, ?_, ?_, ?_, ?_, ?_, ?_⟩
  · intro a ha hne
    exact pyOr_truthy _ _ _ ha hne
  · intro d hf hd hne
    rw [resolveAgg, pyOr_falsy _ _ hf]
    exact pyOr_truthy _ _ _ hd hne
  · intro hf1 hf2
    rw [resolveAgg, pyOr_falsy _ _ hf1, pyOr_falsy _ _ hf2]
  · intro hf1 hf2 hnone
    rw [resolveAgg, pyOr_falsy _ _ hf1, pyOr_falsy _ _ hf2, hnone]
    rfl
  · intro c hc hne
    exact pyOr_truthy _ _ _ hc hne
  · intro hf
    rw [resolveCast, pyOr_falsy _ _ hf]
  · intro hf hnone
    rw [resolveCast, pyOr_falsy _ _ hf, hnone]
    rfl
  · intro g hg hne
    exact pyOr_truthy _ _ _ hg hne
  · intro hf
    rw [resolveGrain, pyOr_falsy _ _ hf]
  · intro hf hnone
    rw [resolveGrain, pyOr_falsy _ _ hf, hnone]
    rfl

/-- Witness for C5: an explicit intent aggregation wins; with no intent
aggregation the metric default wins; with neither, and with no catalog
defaults, the global defaults avg, double and day apply. -/
theorem resolution_chain_witness :
    resolveAgg ⟨"heart_rate", some (some "max"), none, none, none⟩ hrMetric
      testMetricsCfg = "max"
    ∧ resolveAgg specHR hrMetric testMetricsCfg = "avg"
    ∧ resolveCast hrMetric testMetricsCfg = "double"
    ∧ resolveGrain specHR testMetricsCfg = "day" :=
  ⟨(resolution_chain ⟨"heart_rate", some (some "max"), none, none, none⟩
      hrMetric testMetricsCfg).1 "max" rfl (by decide),
   (resolution_chain specHR hrMetric testMetricsCfg).2.1 "avg" rfl rfl
     (by decide),
   (resolution_chain specHR hrMetric testMetricsCfg).2.2.2.2.2.2.1 rfl rfl,
   (resolution_chain specHR hrMetric testMetricsCfg).2.2.2.2.2.2.2.2.2 rfl rfl⟩

/-! ### Claim C10 -/

/-- C10: an aggregation or time-grain field holding the empty string or
null compiles exactly like an absent field, so the default-resolution
chain applies and the empty value never reaches the query text. -/
theorem empty_or_null_field_like_absent (m : String) (a g : Option (Option String))
    (l : Option Int) (tr : Option TimeRange) (cfg : MetricsCfg)
    (dims : DimensionsCfg) :
    build_health_query_sql ⟨m, some none, g, l, tr⟩ cfg dims
      = build_health_query_sql ⟨m, none, g, l, tr⟩ cfg dims
    ∧ build_health_query_sql ⟨m, some (some ""), g, l, tr⟩ cfg dims
      = build_health_query_sql ⟨m, none, g, l, tr⟩ cfg dims
    ∧ build_health_query_sql ⟨m, a, some none, l, tr⟩ cfg dims
      = build_health_query_sql ⟨m, a, none, l, tr⟩ cfg dims
    ∧ build_health_query_sql ⟨m, a, some (some ""), l, tr⟩ cfg dims
      = build_health_query_sql ⟨m, a, none, l, tr⟩ cfg dims := by
  refine ⟨rfl, ?_, rfl, ?_⟩ <;> rfl

/-! ### Claim C9 -/

/-- C9: the embedded entry point threads no state at all — its only
inputs are the intent and the world (catalog files, engine, record
store), matching the source, which has no module-level mutable state and
reopens catalogs and engine on every call.  Hence two calls with the
same intent against an unmodified world return identical results and
identical traces. -/
theorem entry_point_idempotent (w w2 : World) (spec : HealthQuerySpec)
    (hw : w2 = w) :
    handle_healthkit_query w spec = handle_healthkit_query w2 spec
    ∧ (handle_healthkit_query w spec).1 = (handle_healthkit_query w2 spec).1 := by
  subst hw
  exact ⟨rfl, rfl⟩

/-- Witness for C9 at a concrete world and intent. -/
theorem entry_point_idempotent_witness :
    handle_healthkit_query testWorld specHR
      = handle_healthkit_query testWorld specHR
    ∧ (handle_healthkit_query testWorld specHR).1
      = (handle_healthkit_query testWorld specHR).1 :=
  entry_point_idempotent testWorld testWorld specHR rfl

/-! ### Claim C6 -/

/-- C6 counterexample: a concrete call on which the engine raises while
executing the compiled query.  The connection is acquired (a connect
event is in the trace) but no close event ever happens before the call
returns with the error: the source has no try/finally around
lines 145 to 155, so `con.close()` at line 155 is skipped on the
exception path. -/
theorem handle_not_released_on_error :
    EngineEvent.connect ∈ (run_spec failWorld specHR).2
    ∧ EngineEvent.close ∉ (run_spec failWorld specHR).2
    ∧ (run_spec failWorld specHR).1 = .error (.engineError "boom") := by
  exact ⟨by decide, by decide, rfl⟩

/-- C6 amended: the engine handle is released before the call returns on
the successful path (the trace is connect, view registration, query,
close, in that order); on the exit paths where an execute raises, the
error propagates without the handle having been released. -/
theorem close_only_on_success (w : World) (spec : HealthQuerySpec) :
    (EngineEvent.close ∈ (run_spec w spec).2
      ↔ isOkResult (run_spec w spec).1 = true)
    ∧ (∀ r, (run_spec w spec).1 = .ok r →
        (run_spec w spec).2
          = [.connect, .executeStmt createViewSql, .executeStmt r.sql, .close]) := by
  rcases hb : build_health_query_sql spec w.metrics_cfg w.dimensions_cfg with msg | sql
  · simp [run_spec, hb, isOkResult]
  · rcases hv : w.engine.createView with e | u
    · simp [run_spec, hb, hv, isOkResult]
    · rcases hq : w.engine.runQuery sql with e | tbl
      · simp [run_spec, hb, hv, hq, isOkResult]
      · constructor
        · simp [run_spec, hb, hv, hq, isOkResult]
        · intro r hr
          simp only [run_spec, hb, hv, hq, Except.ok.injEq] at hr
          rw [← hr]
          simp [run_spec, hb, hv, hq]

/-- Witness for the amended C6 at a concrete successful call. -/
theorem close_only_on_success_witness :
    EngineEvent.close ∈ (run_spec testWorld specHR).2
    ∧ (run_spec testWorld specHR).2
      = [.connect, .executeStmt createViewSql,
         .executeStmt (joinLines (sqlLinesOf specHR hrMetric testMetricsCfg testDimsCfg)),
         .close] :=
  ⟨(close_only_on_success testWorld specHR).1.mpr rfl,
   (close_only_on_success testWorld specHR).2
     ⟨joinLines (sqlLinesOf specHR hrMetric testMetricsCfg testDimsCfg), []⟩ rfl⟩

/-! ### Claim C7 -/

/-- C7: when the engine fails while executing the compiled query, the
call fails with the engine error wrapped in the executor error type,
nothing is swallowed — no `.ok` result exists — and the error reaches
the entry point `handle_healthkit_query` unchanged, which catches
nothing. -/
theorem engine_error_propagates (w : World) (spec : HealthQuerySpec)
    (sql e : String)
    (hb : build_health_query_sql spec w.metrics_cfg w.dimensions_cfg = .ok sql)
    (hv : w.engine.createView = .ok ())
    (hq : w.engine.runQuery sql = .error e) :
    (run_spec w spec).1 = .error (.engineError e)
    ∧ (handle_healthkit_query w spec).1 = .error (.engineError e)
    ∧ ∀ r, (run_spec w spec).1 ≠ .ok r := by
  have h1 : (run_spec w spec).1 = .error (.engineError e) := by
    simp [run_spec, hb, hv, hq]
  exact ⟨h1, h1, fun r hr => by rw [h1] at hr; exact Except.noConfusion hr⟩

/-- Witness for C7 at a concrete failing engine. -/
theorem engine_error_propagates_witness :
    (run_spec failWorld specHR).1 = .error (.engineError "boom")
    ∧ (handle_healthkit_query failWorld specHR).1
      = .error (.engineError "boom") :=
  ⟨(engine_error_propagates failWorld specHR
      (joinLines (sqlLinesOf specHR hrMetric testMetricsCfg testDimsCfg)) "boom"
      rfl rfl rfl).1,
   (engine_error_propagates failWorld specHR
      (joinLines (sqlLinesOf specHR hrMetric testMetricsCfg testDimsCfg)) "boom"
      rfl rfl rfl).2.1⟩

/-! ### Claim C8 -/

/-- C8: the normalizer maps each row through `convert`, which replaces
every datetime-like value — also nested inside dicts and lists — by its
ISO-8601 string, leaves every other kind of value unchanged, leaves no
datetime-like value in its output, and the ISO-8601 string of a valid
instant parses back to exactly that instant. -/
theorem normalizer_contract :
    (∀ rows, _json_safe_rows rows = rows.map convert)
    ∧ (∀ t, convert (.dateTime t) = .strVal (isoformat t))
    ∧ (∀ fields, convert (.dictVal fields)
        = .dictVal (fields.map (fun p => (p.1, convert p.2))))
    ∧ (∀ elems, convert (.listVal elems) = .listVal (elems.map convert))
    ∧ (∀ v, noDateTimeVal v = true → convert v = v)
    ∧ (∀ v, noDateTimeVal (convert v) = true)
    ∧ (∀ t, HDateTime.valid t → parseIso (isoformat t) = some t) := by
  refine ⟨?_, ?_, ?_, ?_, ?_, ?_, ?_⟩
  · exact convertList_eq_map
  · intro t; rfl
  · intro fields
    simp [convert, convertFields_eq_map]
  · intro elems
    simp [convert, convertList_eq_map]
  · exact convert_of_noDateTimeVal
  · exact noDateTimeVal_convert
  · exact parseIso_isoformat

/-- Witness for C8: the round trip at a concrete instant, and the
normalizer on a concrete nested row. -/
theorem normalizer_contract_witness :
    parseIso (isoformat ⟨2021, 7, 15, 8, 30, 45⟩)
      = some ⟨2021, 7, 15, 8, 30, 45⟩
    ∧ convert (.dictVal [("date", .dateTime ⟨2021, 7, 15, 8, 30, 45⟩),
        ("heart_rate", .intVal 72)])
      = .dictVal [("date", .strVal "2021-07-15T08:30:45"),
        ("heart_rate", .intVal 72)] :=
  ⟨normalizer_contract.2.2.2.2.2.2 ⟨2021, 7, 15, 8, 30, 45⟩ (by decide), rfl⟩

/-! ### Claim C1 -/

/-- C1: for every intent whose metric resolves in the catalog, the
compiler returns exactly the eight-line template SELECT bucket AS alias,
AGG(CAST(value AS type)) AS metric, FROM table, WHERE predicates,
GROUP BY bucket, ORDER BY bucket, LIMIT n — with, provided no
interpolated fragment contains a newline, exactly one line starting with
GROUP BY, whose expression is the catalog entry of the resolved grain, and a
LIMIT equal to the intent limit, or 100 when the intent omits it. -/
theorem compile_shape (spec : HealthQuerySpec) (md : MetricDef)
    (mcfg : MetricsCfg) (dcfg : DimensionsCfg)
    (hm : mcfg.metrics.lookup spec.metric = some md)
    (hnl : ∀ l ∈ sqlLinesOf spec md mcfg dcfg, '\n' ∉ l.data) :
    build_health_query_sql spec mcfg dcfg
      = .ok (joinLines (sqlLinesOf spec md mcfg dcfg))
    ∧ sqlLinesOf spec md mcfg dcfg
      = ["SELECT",
         "  " ++ (get_time_group_expr (resolveGrain spec mcfg) dcfg).1
           ++ " AS " ++ (get_time_group_expr (resolveGrain spec mcfg) dcfg).2
           ++ ",",
         "  " ++ (upperStr (resolveAgg spec md mcfg) ++ "("
             ++ ("CAST(" ++ mcfg.value_field.getD "value" ++ " AS "
                 ++ upperStr (resolveCast md mcfg) ++ ")") ++ ")")
           ++ " AS " ++ spec.metric,
         "FROM " ++ mcfg.table.getD "healthkit_records",
         "WHERE " ++ String.intercalate " AND " (whereClauses spec md),
         "GROUP BY " ++ (get_time_group_expr (resolveGrain spec mcfg) dcfg).1,
         "ORDER BY " ++ (get_time_group_expr (resolveGrain spec mcfg) dcfg).1,
         "LIMIT " ++ toString (spec.limit.getD 100) ++ ";"]
    ∧ splitNl (joinLines (sqlLinesOf spec md mcfg dcfg)).data
      = (sqlLinesOf spec md mcfg dcfg).map String.data
    ∧ countLinesStartingWith "GROUP BY"
        (joinLines (sqlLinesOf spec md mcfg dcfg)) = 1
    ∧ (sqlLinesOf spec md mcfg dcfg).get? 5
      = some ("GROUP BY "
          ++ (get_time_group_expr (resolveGrain spec mcfg) dcfg).1)
    ∧ (sqlLinesOf spec md mcfg dcfg).get? 7
      = some ("LIMIT " ++ toString (spec.limit.getD 100) ++ ";")
    ∧ (spec.limit = none →
        (sqlLinesOf spec md mcfg dcfg).get? 7 = some "LIMIT 100;") := by
  have hexp : sqlLinesOf spec md mcfg dcfg
      = ["SELECT",
         "  " ++ (get_time_group_expr (resolveGrain spec mcfg) dcfg).1
           ++ " AS " ++ (get_time_group_expr (resolveGrain spec mcfg) dcfg).2
           ++ ",",
         "  " ++ (upperStr (resolveAgg spec md mcfg) ++ "("
             ++ ("CAST(" ++ mcfg.value_field.getD "value" ++ " AS "
                 ++ upperStr (resolveCast md mcfg) ++ ")") ++ ")")
           ++ " AS " ++ spec.metric,
         "FROM " ++ mcfg.table.getD "healthkit_records",
         "WHERE " ++ String.intercalate " AND " (whereClauses spec md),
         "GROUP BY " ++ (get_time_group_expr (resolveGrain spec mcfg) dcfg).1,
         "ORDER BY " ++ (get_time_group_expr (resolveGrain spec mcfg) dcfg).1,
         "LIMIT " ++ toString (spec.limit.getD 100) ++ ";"] := rfl
  have hne : sqlLinesOf spec md mcfg dcfg ≠ [] := by
    rw [hexp]; simp
  have hsplit := splitNl_joinLines _ hne hnl
  refine ⟨?_, hexp, hsplit, ?_, rfl, rfl, ?_⟩
  · simp [build_health_query_sql, hm]
  · rw [countLinesStartingWith, hsplit, hexp]
    simp [List.filter, notGB_cons, gb_cons]
  · intro h0
    rw [hexp, h0]
    rfl

/-- Witness for C1 at a concrete intent with limit 30 and at the same
intent with the limit omitted. -/
theorem compile_shape_witness :
    build_health_query_sql specW testMetricsCfg testDimsCfg
      = .ok (joinLines (sqlLinesOf specW hrMetric testMetricsCfg testDimsCfg))
    ∧ countLinesStartingWith "GROUP BY"
        (joinLines (sqlLinesOf specW hrMetric testMetricsCfg testDimsCfg)) = 1
    ∧ (sqlLinesOf specW hrMetric testMetricsCfg testDimsCfg).get? 7
      = some "LIMIT 30;"
    ∧ (sqlLinesOf specHR hrMetric testMetricsCfg testDimsCfg).get? 7
      = some "LIMIT 100;" :=
  ⟨(compile_shape specW hrMetric testMetricsCfg testDimsCfg rfl (by decide)).1,
   (compile_shape specW hrMetric testMetricsCfg testDimsCfg rfl
     (by decide)).2.2.2.1,
   (compile_shape specW hrMetric testMetricsCfg testDimsCfg rfl
     (by decide)).2.2.2.2.2.1,
   (compile_shape specHR hrMetric testMetricsCfg testDimsCfg rfl
     (by decide)).2.2.2.2.2.2 rfl⟩

/-! ### Claim C3 -/

/-- C3: a time range with a missing, null or empty bound contributes no
date predicate at all — the compiled query is identical to the one for
the same intent without a time range; when both bounds are truthy the
WHERE clauses are the base clauses plus a single inclusive BETWEEN
predicate on the start-timestamp column. -/
theorem one_sided_time_range_ignored (spec : HealthQuerySpec) (md : MetricDef)
    (mcfg : MetricsCfg) (dcfg : DimensionsCfg) (tr : TimeRange) :
    (spec.time_range = some tr →
      (truthyStr tr.start = false ∨ truthyStr tr.end_ = false) →
      timeRangeClauses spec = []
      ∧ build_health_query_sql spec mcfg dcfg
        = build_health_query_sql
            ⟨spec.metric, spec.aggregation, spec.time_grain, spec.limit, none⟩
            mcfg dcfg)
    ∧ (∀ s e, spec.time_range = some tr → tr.start = some s →
        tr.end_ = some e → s ≠ "" → e ≠ "" →
        whereClauses spec md
          = ["type = \x27" ++ md.hk_type ++ "\x27"] ++ unitClauses md
            ++ ["startDate BETWEEN \x27" ++ s ++ "\x27 AND \x27" ++ e ++ "\x27"]) := by
  constructor
  · intro htr hfalse
    have htrc : timeRangeClauses spec = [] := by
      obtain ⟨ts, te⟩ := tr
      rcases hfalse with hf | hf
      · cases ts with
        | none => cases te <;> simp [timeRangeClauses, htr]
        | some s =>
          simp only [truthyStr, decide_eq_false_iff_not, not_not] at hf
          subst hf
          cases te <;> simp [timeRangeClauses, htr]
      · cases te with
        | none => cases ts <;> simp [timeRangeClauses, htr]
        | some e2 =>
          simp only [truthyStr, decide_eq_false_iff_not, not_not] at hf
          subst hf
          cases ts <;> simp [timeRangeClauses, htr]
    refine ⟨htrc, ?_⟩
    unfold build_health_query_sql
    have hmet : (⟨spec.metric, spec.aggregation, spec.time_grain, spec.limit,
        none⟩ : HealthQuerySpec).metric = spec.metric := rfl
    rw [hmet]
    cases hl : mcfg.metrics.lookup spec.metric with
    | none => rfl
    | some md2 =>
      have hw : whereClauses spec md2
          = whereClauses
              ⟨spec.metric, spec.aggregation, spec.time_grain, spec.limit,
               none⟩ md2 := by
        rw [whereClauses, whereClauses, htrc]
        rfl
      simp only [sqlLinesOf, hw]
      rfl
  · intro s e htr hts hte hs he
    obtain ⟨ts, te⟩ := tr
    simp only [TimeRange.start] at hts
    simp only [TimeRange.end_] at hte
    subst hts
    subst hte
    simp [whereClauses, timeRangeClauses, htr, hs, he]

/-- Witness for C3: a start-only June range compiles identically to no
range at all, and the complete June range adds exactly one BETWEEN
clause. -/
theorem one_sided_time_range_ignored_witness :
    build_health_query_sql startOnlySpec testMetricsCfg testDimsCfg
      = build_health_query_sql ⟨"step_count", none, none, none, none⟩
          testMetricsCfg testDimsCfg
    ∧ whereClauses junSpec stepMetric
      = ["type = \x27HKQuantityTypeIdentifierStepCount\x27",
         "unit = \x27count\x27",
         "startDate BETWEEN \x272022-06-01\x27 AND \x272022-06-30\x27"] :=
  ⟨((one_sided_time_range_ignored startOnlySpec stepMetric testMetricsCfg
      testDimsCfg ⟨some "2022-06-01", none⟩).1 rfl (Or.inr rfl)).2,
   (one_sided_time_range_ignored junSpec stepMetric testMetricsCfg testDimsCfg
      ⟨some "2022-06-01", some "2022-06-30"⟩).2 "2022-06-01" "2022-06-30"
      rfl rfl rfl (by decide) (by decide)⟩

/-! ### Claim C4 -/

/-- C4: any grain outside day, week, month does not make the compiler
fail: it falls back to the full start-timestamp grouping expression of
the dimension catalog with its alias, and a known-metric intent carrying
such a grain compiles successfully, with that expression in the SELECT,
GROUP BY and ORDER BY lines. -/
theorem grain_fallback (g : String) (spec : HealthQuerySpec) (md : MetricDef)
    (mcfg : MetricsCfg) (dcfg : DimensionsCfg)
    (hg1 : g ≠ "day") (hg2 : g ≠ "week") (hg3 : g ≠ "month") :
    get_time_group_expr g dcfg = (dcfg.start_timestamp_expr, "start_timestamp")
    ∧ (mcfg.metrics.lookup spec.metric = some md →
       spec.time_grain = some (some g) → g ≠ "" →
       resolveGrain spec mcfg = g
       ∧ build_health_query_sql spec mcfg dcfg
         = .ok (joinLines (sqlLinesOf spec md mcfg dcfg))
       ∧ (sqlLinesOf spec md mcfg dcfg).get? 1
         = some ("  " ++ (dcfg.start_timestamp_expr ++ " AS start_timestamp,"))
       ∧ (sqlLinesOf spec md mcfg dcfg).get? 5
         = some ("GROUP BY " ++ dcfg.start_timestamp_expr)
       ∧ (sqlLinesOf spec md mcfg dcfg).get? 6
         = some ("ORDER BY " ++ dcfg.start_timestamp_expr)) := by
  have hfall : get_time_group_expr g dcfg
      = (dcfg.start_timestamp_expr, "start_timestamp") := by
    simp [get_time_group_expr, hg1, hg2, hg3]
  refine ⟨hfall, ?_⟩
  intro hm hsg hne
  have hgr : resolveGrain spec mcfg = g := by
    rw [resolveGrain]
    exact pyOr_truthy _ _ _ (by simp [pyGet, hsg]) hne
  have h1 : (sqlLinesOf spec md mcfg dcfg).get? 1
      = some ("  " ++ (get_time_group_expr (resolveGrain spec mcfg) dcfg).1
          ++ " AS " ++ (get_time_group_expr (resolveGrain spec mcfg) dcfg).2
          ++ ",") := rfl
  have h5 : (sqlLinesOf spec md mcfg dcfg).get? 5
      = some ("GROUP BY "
          ++ (get_time_group_expr (resolveGrain spec mcfg) dcfg).1) := rfl
  have h6 : (sqlLinesOf spec md mcfg dcfg).get? 6
      = some ("ORDER BY "
          ++ (get_time_group_expr (resolveGrain spec mcfg) dcfg).1) := rfl
  refine ⟨hgr, by simp [build_health_query_sql, hm], ?_, ?_, ?_⟩
  · rw [h1, hgr, hfall]
    simp [String.append_assoc]
  · rw [h5, hgr, hfall]
  · rw [h6, hgr, hfall]

/-- Witness for C4 at the grain year against the concrete catalogs. -/
theorem grain_fallback_witness :
    get_time_group_expr "year" testDimsCfg = ("startDate", "start_timestamp")
    ∧ (sqlLinesOf yearSpec hrMetric testMetricsCfg testDimsCfg).get? 5
      = some "GROUP BY startDate"
    ∧ build_health_query_sql yearSpec testMetricsCfg testDimsCfg
      = .ok (joinLines (sqlLinesOf yearSpec hrMetric testMetricsCfg testDimsCfg)) :=
  ⟨(grain_fallback "year" yearSpec hrMetric testMetricsCfg testDimsCfg
      (by decide) (by decide) (by decide)).1,
   ((grain_fallback "year" yearSpec hrMetric testMetricsCfg testDimsCfg
      (by decide) (by decide) (by decide)).2 rfl rfl (by decide)).2.2.2.1,
   ((grain_fallback "year" yearSpec hrMetric testMetricsCfg testDimsCfg
      (by decide) (by decide) (by decide)).2 rfl rfl (by decide)).2.1⟩

end HealthQuery
